import Mathlib

/-!
Verification of the knowledge-graph-creation pipeline
(src/pipeline.py and src/pipelineUtils.py) against its
natural-language specification.

The Python code is shallowly embedded: pure data transformations become
Lean functions on lists and strings; filesystem, subprocess and HTTP
effects are made explicit by passing the relevant part of the outside
world (file contents, directory listings, process results, HTTP
responses) as function arguments, and by returning the performed
actions (invocations, requests, written files, log lines) as data.
Python exceptions are modelled with `Except` / an explicit error slot.
-/

namespace KGPipeline

/-- Log lines produced through the `logging` module. -/
inductive LogEntry
  | info (msg : String)
  | error (msg : String)
  deriving DecidableEq

/-- Python exceptions that the embedded code can raise. -/
inductive PyErr
  | fileNotFound (path : String)
  | keyError (key : String)
  | valueError (msg : String)
  | typeError (msg : String)
  | unboundLocal (name : String)
  | transportError (msg : String)
  | zeroDivision
  deriving DecidableEq

/-- Plain files of the outside filesystem: path to content. -/
def Fs : Type := String → Option String

/-- Write a file (`open(p, "w")` followed by `write`). -/
def fsWrite (fs : Fs) (p content : String) : Fs :=
  fun q => if q = p then some content else fs q

/-- Delete a file (`os.remove`). -/
def fsRemove (fs : Fs) (p : String) : Fs :=
  fun q => if q = p then none else fs q

/-- Directory-level view of the filesystem used through `os.path.isdir`,
`os.path.isfile`, `os.path.exists` and `os.listdir`. -/
structure DirFs where
  isDir : String → Bool
  isFile : String → Bool
  pathExists : String → Bool
  listdir : String → List String

/-- Embedding of `os.path.join(dir, name)` for the relative file names
this pipeline produces (`data_chunk_i.csv`, listed directory entries). -/
def joinPath (dir name : String) : String :=
  if dir.data.getLast? = some '/' then dir ++ name else dir ++ "/" ++ name

/-! ### Dataset splitter, from `split_dataset` (src/pipelineUtils.py:297-329)

A loaded CSV dataset is its list of rows (`pd.read_csv` keeps source
order); a written chunk file is its target path paired with the rows it
receives.  `chunk_size = len(data) // n_chunks`; chunk `i` is
`data.iloc[start : start + chunk_size]` except the last chunk, which is
`data.iloc[start :]`. -/

/-- Rows written into chunk `i` by the loop body of `split_dataset`. -/
def chunkOf {α : Type} (rows : List α) (chunk_size n_chunks i : Nat) : List α :=
  if i = n_chunks - 1 then rows.drop (i * chunk_size)
  else (rows.drop (i * chunk_size)).take chunk_size

/-- Result of `split_dataset`: whether `os.makedirs` was called, and the
chunk files written (path, rows), in the order they are written. -/
structure SplitResult (α : Type) where
  madeDir : Bool
  files : List (String × List α)
  deriving DecidableEq

/-- Embedding of `split_dataset` (src/pipelineUtils.py:297-329). -/
def split_dataset {α : Type} (rows : List α) (n_chunks : Nat) (output_dir : String)
    (dirExists : Bool) : SplitResult α :=
  let chunk_size := rows.length / n_chunks
  { madeDir := !dirExists
    files := (List.range n_chunks).map (fun i =>
      (joinPath output_dir ("data_chunk_" ++ toString i ++ ".csv"),
       chunkOf rows chunk_size n_chunks i)) }

/-- Statement of claim C1, following the claim's words: splitting `rows`
into `N` chunks creates the output directory if absent and writes exactly
`N` files named `data_chunk_i.csv`, the first `N - 1` holding
`rows.length / N` rows each, the last holding the remainder, the counts
summing to `rows.length`, and concatenating the chunks in file order
giving back `rows`. -/
def SplitDatasetSpec {α : Type} (rows : List α) (N : Nat) (dir : String)
    (dirExists : Bool) : Prop :=
  (split_dataset rows N dir dirExists).madeDir = !dirExists ∧
  (split_dataset rows N dir dirExists).files.length = N ∧
  (∀ i, i < N → (split_dataset rows N dir dirExists).files[i]? = some
      (joinPath dir ("data_chunk_" ++ toString i ++ ".csv"),
       chunkOf rows (rows.length / N) N i)) ∧
  (∀ i, i + 1 < N → (chunkOf rows (rows.length / N) N i).length = rows.length / N) ∧
  (chunkOf rows (rows.length / N) N (N - 1)).length
      = rows.length - (N - 1) * (rows.length / N) ∧
  (((split_dataset rows N dir dirExists).files.map Prod.snd).map List.length).sum
      = rows.length ∧
  ((split_dataset rows N dir dirExists).files.map Prod.snd).flatten = rows

/-! ### Text normalizers, from `remove_numbers` (src/pipelineUtils.py:251-252)
and the `property` / `unit` / `quality` column transformations of
`clean_data` (src/pipelineUtils.py:258-291). -/

/-- Embedding of `re.sub(r"\d+", "", text)`: scan left to right; a maximal
run of digits is a match of the pattern and is replaced by the empty
string; any other character is kept.  The fuel argument (instantiated
with the length of the input) only makes the recursion structural; each
step consumes at least one character, so fuel is never exhausted. -/
def removeNumAux : Nat → List Char → List Char
  | 0, _ => []
  | _, [] => []
  | fuel + 1, c :: cs =>
    if c.isDigit then removeNumAux fuel (cs.dropWhile Char.isDigit)
    else c :: removeNumAux fuel cs

/-- Embedding of `remove_numbers` (src/pipelineUtils.py:251-252). -/
def remove_numbers (s : String) : String :=
  ⟨removeNumAux s.data.length s.data⟩

/-- Embedding of one element of
`data["property"].str.replace(r"^Current.*", "Current", regex=True)`
(src/pipelineUtils.py:283-285): `^` anchors the single possible match at
the start, and `.` does not match a newline, so when the value starts
with `"Current"` the match extends to the first newline (or the end) and
is replaced by `"Current"`; otherwise the value is unchanged. -/
def collapseCurrent (s : String) : String :=
  if "Current".data.isPrefixOf s.data then
    "Current" ++ String.mk ((s.data.drop 7).dropWhile (fun c => c ≠ '\n'))
  else s

/-- Embedding of one element of
`data["unit"].replace("-", "Dimensionless")` (src/pipelineUtils.py:276):
without `regex=True` this pandas `replace` substitutes whole cell values
equal to `"-"`. -/
def replaceDash (u : String) : String :=
  if u = "-" then "Dimensionless" else u

/-- The literal pattern of
`data["quality"].replace("Qualità della misura: ", "", regex=True)`
(src/pipelineUtils.py:279). -/
def qualPat : String := "Qualità della misura: "

/-- Embedding of `re.sub` with the literal pattern `qualPat` and empty
replacement, which is what pandas `Series.replace(..., regex=True)`
applies to each cell: scan left to right; wherever the pattern occurs,
drop it and continue after it; otherwise keep the character.  Fuel as in
`removeNumAux`. -/
def stripQualAux : Nat → List Char → List Char
  | 0, _ => []
  | _, [] => []
  | fuel + 1, c :: cs =>
    if qualPat.data.isPrefixOf (c :: cs) then
      stripQualAux fuel ((c :: cs).drop qualPat.data.length)
    else c :: stripQualAux fuel cs

/-- The quality-column transformation applied to one cell. -/
def stripQuality (s : String) : String :=
  ⟨stripQualAux s.data.length s.data⟩

/-- Whether `pat` occurs as a contiguous sublist of the argument. -/
def occursIn (pat : List Char) : List Char → Bool
  | [] => pat.isPrefixOf []
  | c :: cs => pat.isPrefixOf (c :: cs) || occursIn pat cs

/-! ### Timestamp normalizer, from `convert_to_iso8601`
(src/pipelineUtils.py:232-245)

`datetime.strptime(date_str, "%Y-%m-%d %H:%M:%S.%f")` is embedded after
CPython's `_strptime` implementation, which compiles the format to the
regular expression
`(\d\d\d\d)-(1[0-2]|0[1-9]|[1-9])-(3[0-1]|[1-2]\d|0[1-9]|[1-9]| [1-9])\s+(2[0-3]|[0-1]\d|\d):([0-5]\d|\d):(6[0-1]|[0-5]\d|\d)\.([0-9]{1,6})`
— whitespace in the format becomes `\s+` (any run of one or more
whitespace characters), and `%d` also admits a space-padded day — and
requires the match to cover the whole input ("unconverted data
remains" otherwise).  Each alternation below is deterministic: whenever a
two-character alternative matches, the following literal separator or
`\s+` rules out the one-character alternative, and conversely (the
space-padded day alternative starts with whitespace while every other
day alternative starts with a digit), so no backtracking across fields
can change the outcome.  Values the regular expression admits but
`datetime(...)` rejects (day beyond the month's length, second 60 or 61)
raise `ValueError` in Python and yield `none` here. -/

/-- Numeric value of a decimal digit character. -/
def digitVal (c : Char) : Nat := c.toNat - 48

/-- Parse `%Y`: exactly four digits. -/
def parseYear : List Char → Option (Nat × List Char)
  | a :: b :: c :: d :: rest =>
    if a.isDigit && b.isDigit && c.isDigit && d.isDigit then
      some (digitVal a * 1000 + digitVal b * 100 + digitVal c * 10 + digitVal d, rest)
    else none
  | _ => none

/-- Parse `%m`: regex `1[0-2]|0[1-9]|[1-9]`. -/
def parseMonth : List Char → Option (Nat × List Char)
  | '1' :: b :: rest =>
    if b = '0' ∨ b = '1' ∨ b = '2' then some (10 + digitVal b, rest)
    else some (1, b :: rest)
  | '0' :: b :: rest =>
    if '1' ≤ b ∧ b ≤ '9' then some (digitVal b, rest) else none
  | c :: rest =>
    if '1' ≤ c ∧ c ≤ '9' then some (digitVal c, rest) else none
  | [] => none

/-- Parse `%d`: regex `3[0-1]|[1-2]\d|0[1-9]|[1-9]| [1-9]` — the last
alternative is the space-padded day. -/
def parseDay : List Char → Option (Nat × List Char)
  | '3' :: b :: rest =>
    if b = '0' ∨ b = '1' then some (30 + digitVal b, rest)
    else some (3, b :: rest)
  | '0' :: b :: rest =>
    if '1' ≤ b ∧ b ≤ '9' then some (digitVal b, rest) else none
  | ' ' :: b :: rest =>
    if '1' ≤ b ∧ b ≤ '9' then some (digitVal b, rest) else none
  | c :: b :: rest =>
    if ('1' ≤ c ∧ c ≤ '2') ∧ b.isDigit then some (digitVal c * 10 + digitVal b, rest)
    else if '1' ≤ c ∧ c ≤ '9' then some (digitVal c, b :: rest)
    else none
  | [c] => if '1' ≤ c ∧ c ≤ '9' then some (digitVal c, []) else none
  | [] => none

/-- Parse `%H`: regex `2[0-3]|[0-1]\d|\d`. -/
def parseHour : List Char → Option (Nat × List Char)
  | '2' :: b :: rest =>
    if b = '0' ∨ b = '1' ∨ b = '2' ∨ b = '3' then some (20 + digitVal b, rest)
    else some (2, b :: rest)
  | c :: b :: rest =>
    if (c = '0' ∨ c = '1') ∧ b.isDigit then some (digitVal c * 10 + digitVal b, rest)
    else if c.isDigit then some (digitVal c, b :: rest)
    else none
  | [c] => if c.isDigit then some (digitVal c, []) else none
  | [] => none

/-- Parse `%M`: regex `[0-5]\d|\d`. -/
def parseMinute : List Char → Option (Nat × List Char)
  | c :: b :: rest =>
    if (c.isDigit ∧ c ≤ '5') ∧ b.isDigit then some (digitVal c * 10 + digitVal b, rest)
    else if c.isDigit then some (digitVal c, b :: rest)
    else none
  | [c] => if c.isDigit then some (digitVal c, []) else none
  | [] => none

/-- Parse `%S`: regex `6[0-1]|[0-5]\d|\d`. -/
def parseSecond : List Char → Option (Nat × List Char)
  | '6' :: b :: rest =>
    if b = '0' ∨ b = '1' then some (60 + digitVal b, rest)
    else some (6, b :: rest)
  | c :: b :: rest =>
    if (c.isDigit ∧ c ≤ '5') ∧ b.isDigit then some (digitVal c * 10 + digitVal b, rest)
    else if c.isDigit then some (digitVal c, b :: rest)
    else none
  | [c] => if c.isDigit then some (digitVal c, []) else none
  | [] => none

/-- Parse `%f`: regex `[0-9]{1,6}`, greedy; 1 to 6 digits, padded on the
right to microseconds as `_strptime` does. -/
def parseFrac (l : List Char) : Option (Nat × List Char) :=
  let ds := (l.takeWhile Char.isDigit).take 6
  if ds.isEmpty then none
  else some ((ds.foldl (fun a c => a * 10 + digitVal c) 0) * 10 ^ (6 - ds.length),
    l.drop ds.length)

/-- Consume one expected literal character. -/
def expectChar (c : Char) : List Char → Option (List Char)
  | x :: rest => if x = c then some rest else none
  | [] => none

/-- The characters Python's regex `\s` matches in text patterns: the 29
Unicode whitespace code points
U+0009-U+000D, U+001C-U+001F, U+0020, U+0085, U+00A0, U+1680,
U+2000-U+200A, U+2028, U+2029, U+202F, U+205F and U+3000. -/
def isPySpace (c : Char) : Bool :=
  let n := c.toNat
  (9 ≤ n && n ≤ 13) || (28 ≤ n && n ≤ 32) ||
  n == 133 || n == 160 || n == 5760 || (8192 ≤ n && n ≤ 8202) ||
  n == 8232 || n == 8233 || n == 8239 || n == 8287 || n == 12288

/-- Consume `\s+`, the compiled form of the format's space: one or more
whitespace characters, greedy.  Greediness is harmless here because the
field that follows always starts with a digit, never whitespace. -/
def parseSpaces (l : List Char) : Option (List Char) :=
  let ws := l.takeWhile isPySpace
  if ws.isEmpty then none else some (l.drop ws.length)

/-- Gregorian leap year, as `datetime` uses. -/
def isLeap (y : Nat) : Bool := (y % 4 = 0 && y % 100 != 0) || y % 400 = 0

/-- Length of a month, as `datetime` validates the day against. -/
def daysInMonth (y m : Nat) : Nat :=
  if m = 2 then (if isLeap y then 29 else 28)
  else if m = 4 ∨ m = 6 ∨ m = 9 ∨ m = 11 then 30
  else 31

/-- Left-pad a number with zeros to the given width. -/
def padZeros (width n : Nat) : String :=
  let s := toString n
  ⟨List.replicate (width - s.length) '0' ++ s.data⟩

/-- Embedding of `datetime.isoformat()`: `sep` is `T`; the fractional
part is printed (six digits) only when the microsecond field is
non-zero. -/
def isoformat (y mo d h mi s us : Nat) : String :=
  padZeros 4 y ++ "-" ++ padZeros 2 mo ++ "-" ++ padZeros 2 d ++ "T" ++
  padZeros 2 h ++ ":" ++ padZeros 2 mi ++ ":" ++ padZeros 2 s ++
  (if us = 0 then "" else "." ++ padZeros 6 us)

/-- Embedding of `convert_to_iso8601` (src/pipelineUtils.py:232-245):
`none` models the `ValueError` that `strptime` (no match, trailing
characters) or the `datetime` constructor (year 0, invalid day,
second 60/61) raises. -/
def convert_to_iso8601 (date_str : String) : Option String := do
  let (y, r1) ← parseYear date_str.data
  let r2 ← expectChar '-' r1
  let (mo, r3) ← parseMonth r2
  let r4 ← expectChar '-' r3
  let (d, r5) ← parseDay r4
  let r6 ← parseSpaces r5
  let (h, r7) ← parseHour r6
  let r8 ← expectChar ':' r7
  let (mi, r9) ← parseMinute r8
  let r10 ← expectChar ':' r9
  let (s, r11) ← parseSecond r10
  let r12 ← expectChar '.' r11
  let (us, r13) ← parseFrac r12
  if r13 = [] ∧ 1 ≤ y ∧ d ≤ daysInMonth y mo ∧ s ≤ 59 then
    some (isoformat y mo d h mi s us)
  else none

/-- Statement taken from the claim's words, for comparison with the code:
a string "matching the fixed format YYYY-MM-DD HH:MM:SS.ffffff exactly"
is 26 characters laid out as four digits, `-`, two digits, `-`, two
digits, space, two digits, `:`, two digits, `:`, two digits, `.`, six
digits.  `d` in the shape below stands for one digit. -/
def matchesShape : List Char → List Char → Bool
  | [], [] => true
  | 'd' :: ps, c :: cs => c.isDigit && matchesShape ps cs
  | p :: ps, c :: cs => (p = c) && matchesShape ps cs
  | _, _ => false

/-- A string of the exact fixed shape `YYYY-MM-DD HH:MM:SS.ffffff`. -/
def matchesFixedFormat (s : String) : Bool :=
  matchesShape "dddd-dd-dd dd:dd:dd.dddddd".data s.data

/-! ### Dataset cleaner, from `clean_data` (src/pipelineUtils.py:258-291)

The model keeps the four columns the cleaner reads plus the derived
`property` column it adds.  pandas applies the transformations
column-by-column; the only fallible one is the timestamp conversion, so
the observable behaviour (first malformed timestamp aborts the whole
operation, otherwise every column is rewritten) is the same as the
row-by-row traversal below. -/

/-- A row of the input CSV, restricted to the columns `clean_data`
touches. -/
structure Row where
  data_rilevazione : String
  unit : String
  quality : String
  register_name : String
  deriving DecidableEq

/-- A row of the cleaned CSV: same columns plus the derived `property`. -/
structure CRow where
  data_rilevazione : String
  unit : String
  quality : String
  register_name : String
  property : String
  deriving DecidableEq

/-- The column transformations of `clean_data`
(src/pipelineUtils.py:273-285) applied to the loaded table; `.error`
models the `ValueError` raised by `strptime` on the first malformed
timestamp, which aborts the whole operation. -/
def clean_table : List Row → Except PyErr (List CRow)
  | [] => .ok []
  | r :: rest =>
    match convert_to_iso8601 r.data_rilevazione with
    | none => .error (.valueError ("time data " ++ r.data_rilevazione ++
        " does not match format %Y-%m-%d %H:%M:%S.%f"))
    | some ts =>
      match clean_table rest with
      | .error e => .error e
      | .ok crs =>
        let cr : CRow :=
          { data_rilevazione := ts
            unit := replaceDash r.unit
            quality := stripQuality r.quality
            register_name := r.register_name
            property := collapseCurrent (remove_numbers r.register_name) }
        .ok (cr :: crs)

/-- Embedding of `clean_data` (src/pipelineUtils.py:258-291): load the
dataset at `dataset_path` from `tables`, transform it, and on success
report the write of the cleaned table to `output_path`.  No output is
written when any timestamp is malformed. -/
def clean_data (tables : String → Option (List Row)) (dataset_path output_path : String) :
    Except PyErr (String × List CRow) :=
  match tables dataset_path with
  | none => .error (.fileNotFound dataset_path)
  | some t =>
    match clean_table t with
    | .error e => .error e
    | .ok ct => .ok (output_path, ct)

/-- Input row exhibiting the newline edge case of the property column:
its register name strips to a value that begins with `Current` but
contains a newline. -/
def c8Row : Row :=
  { data_rilevazione := "2021-03-04 10:15:30.500000"
    unit := "-"
    quality := "q"
    register_name := "Current1\nA" }

/-- The row `clean_data` produces from `c8Row`. -/
def c8CleanRow : CRow :=
  { data_rilevazione := "2021-03-04T10:15:30.500000"
    unit := "Dimensionless"
    quality := "q"
    register_name := "Current1\nA"
    property := "Current\nA" }

/-- Input row whose quality value still contains the descriptive prefix
after one cleaning pass. -/
def c9Row : Row :=
  { data_rilevazione := "2021-03-04 10:15:30.500000"
    unit := "V"
    quality := "QualQualità della misura: ità della misura: x"
    register_name := "r" }

/-- The row `clean_data` produces from `c9Row`: its quality value again
contains the descriptive prefix. -/
def c9CleanRow : CRow :=
  { data_rilevazione := "2021-03-04T10:15:30.500000"
    unit := "V"
    quality := "Qualità della misura: x"
    register_name := "r"
    property := "r" }

/-! ### Mapping invoker, from `execute_rml` (src/pipelineUtils.py:23-80)
and `mapping` (src/pipelineUtils.py:86-158) -/

/-- Result of the external mapper process (`subprocess.run`): exit code
and captured standard error. -/
structure ProcResult where
  returncode : Int
  stderr : String
  deriving DecidableEq

/-- The fixed shared temporary rule file name
(src/pipelineUtils.py:51). -/
def tmp_rml_file : String := "tmp_mapping.rml.ttl"

/-- The shell command `execute_rml` builds
(src/pipelineUtils.py:60-70). -/
def rmlCommand (rml_mapper_path output_file : String) : String :=
  "java " ++ String.intercalate " "
    ["-Xms512m", "-Xmx10g", "-XX:+UseG1GC",
     "-jar " ++ rml_mapper_path,
     "-m " ++ tmp_rml_file,
     "-o " ++ output_file]

/-- Embedding of `execute_rml` (src/pipelineUtils.py:23-80): read the
rule template, substitute the placeholder, write the shared temporary
rule file, run the mapper (`run` gives the process result for a
command), log a non-zero exit (the `CalledProcessError` is caught, not
re-raised), and delete the temporary file.  The returned filesystem and
log list are the function's effects. -/
def execute_rml (fs : Fs) (run : String → ProcResult)
    (csv_file rml_file output_file rml_mapper_path : String) :
    Except PyErr (Fs × List LogEntry) :=
  match fs rml_file with
  | none => .error (.fileNotFound rml_file)
  | some rml_content =>
    let substituted := rml_content.replace "{csv_file_path}" csv_file
    let fs1 := fsWrite fs tmp_rml_file substituted
    let r := run (rmlCommand rml_mapper_path output_file)
    let logs := if r.returncode = 0 then []
      else [LogEntry.error ("Error: " ++ toString r.returncode ++ ", " ++ r.stderr)]
    .ok (fsRemove fs1 tmp_rml_file, logs)

/-- One call of `execute_rml` as performed by `mapping`: which CSV file,
which rule file, which output target. -/
structure Invocation where
  csv_file : String
  rml_file : String
  output_file : String
  rml_mapper_path : String
  deriving DecidableEq

/-- Embedding of `mapping` (src/pipelineUtils.py:86-158), returning the
list of `execute_rml` invocations it performs.  In the branch where the
rule path is a file and the CSV path is a directory, the loop body first
evaluates the log f-string
`f"Processing file: {csv_file}, RML: {rml_file}"`
(src/pipelineUtils.py:144); `rml_file` is a local variable of the
function that is only assigned by the `for` loop of the rule-directory
branch (line 115), so on this path it is unbound and the first iteration
raises `UnboundLocalError`, before any invocation. -/
def mapping (d : DirFs) (csv_file_path rml_path output_dir mapper_path : String) :
    Except PyErr (List Invocation) :=
  if d.isDir rml_path then
    .ok (((d.listdir rml_path).enum.map (fun p =>
      if d.isDir csv_file_path then
        (d.listdir csv_file_path).enum.map (fun q =>
          { csv_file := csv_file_path ++ q.2
            rml_file := rml_path ++ p.2
            output_file := output_dir ++ "output_" ++ toString q.1 ++ "_" ++
              toString p.1 ++ ".ttl"
            rml_mapper_path := mapper_path })
      else if d.isFile csv_file_path then
        [{ csv_file := csv_file_path, rml_file := rml_path ++ p.2,
           output_file := output_dir, rml_mapper_path := mapper_path }]
      else [])).flatten)
  else if d.isFile rml_path then
    if d.isDir csv_file_path then
      match d.listdir csv_file_path with
      | [] => .ok []
      | _ :: _ => .error (.unboundLocal "rml_file")
    else if d.isFile csv_file_path then
      .ok [{ csv_file := csv_file_path, rml_file := rml_path,
             output_file := output_dir, rml_mapper_path := mapper_path }]
    else .ok []
  else .ok []

/-- Directory layout for the concrete run exhibiting the `mapping` bug:
the rule path is a single file and the CSV path is a directory holding
one chunk file. -/
def c2Dfs : DirFs :=
  { isDir := fun p => p == "chunks/"
    isFile := fun p => p == "rules.rml.ttl"
    pathExists := fun _ => true
    listdir := fun p => if p == "chunks/" then ["data_chunk_0.csv"] else [] }

/-! ### Uploader, from `upload` (src/pipelineUtils.py:164-194) and
`upload_rdf_data_to_graphdb` (src/pipelineUtils.py:200-226) -/

/-- An HTTP POST request as issued by `requests.post`. -/
structure Request where
  url : String
  contentType : String
  body : String
  deriving DecidableEq

/-- What the network does with a request: either an HTTP response
(status code and body text) or a transport failure, which
`requests.post` raises as an exception. -/
inductive HttpOutcome
  | response (status : Nat) (text : String)
  | transportError (msg : String)
  deriving DecidableEq

/-- Whether the outcome is an HTTP response (no transport failure). -/
def isResponse : HttpOutcome → Bool
  | .response _ _ => true
  | .transportError _ => false

/-- The request `upload` constructs (src/pipelineUtils.py:176-186). -/
def mkUploadRequest (graphdb_url repository_id body : String) : Request :=
  { url := graphdb_url ++ "/repositories/" ++ repository_id ++ "/statements"
    contentType := "text/turtle"
    body := body }

/-- Embedding of `upload` (src/pipelineUtils.py:164-194): read the file,
POST its contents, log success on status 204 and failure otherwise.  The
result lists the requests attempted (the POST counts as attempted even
when the transport fails), the log lines, and the uncaught exception if
any: `upload` has no exception handler, so a transport failure
propagates. -/
def upload (fs : Fs) (net : Request → HttpOutcome)
    (graphdb_url repository_id rdf_file_path : String) :
    List Request × List LogEntry × Option PyErr :=
  match fs rdf_file_path with
  | none => ([], [], some (.fileNotFound rdf_file_path))
  | some rdf_data =>
    let req := mkUploadRequest graphdb_url repository_id rdf_data
    match net req with
    | .transportError m => ([req], [], some (.transportError m))
    | .response status text =>
      if status = 204 then
        ([req], [LogEntry.info ("RDF file " ++ rdf_file_path ++
          " uploaded to repository " ++ repository_id ++ ".")], none)
      else
        ([req], [LogEntry.error ("Failed to upload RDF file " ++ rdf_file_path ++
          ". Response: " ++ text)], none)

/-- The directory loop of `upload_rdf_data_to_graphdb`
(src/pipelineUtils.py:215-219): for each listed file, log it and upload
`os.path.join(dir, file)`; an exception escaping `upload` aborts the
loop (there is no handler), leaving the remaining files unattempted. -/
def uploadDirFiles (fs : Fs) (net : Request → HttpOutcome)
    (graphdb_url repository dirPath : String) :
    List String → List Request × List LogEntry × Option PyErr
  | [] => ([], [], none)
  | f :: rest =>
    let r1 := upload fs net graphdb_url repository (joinPath dirPath f)
    match r1.2.2 with
    | some e => (r1.1, LogEntry.info ("Uploading file: " ++ f) :: r1.2.1, some e)
    | none =>
      let r2 := uploadDirFiles fs net graphdb_url repository dirPath rest
      (r1.1 ++ r2.1,
       (LogEntry.info ("Uploading file: " ++ f) :: r1.2.1) ++ r2.2.1,
       r2.2.2)

/-- Embedding of `upload_rdf_data_to_graphdb`
(src/pipelineUtils.py:200-226). -/
def upload_rdf_data_to_graphdb (d : DirFs) (fs : Fs) (net : Request → HttpOutcome)
    (rdf_file_path graphdb_url repository : String) :
    List Request × List LogEntry × Option PyErr :=
  if d.isDir rdf_file_path then
    uploadDirFiles fs net graphdb_url repository rdf_file_path
      (d.listdir rdf_file_path)
  else if d.isFile rdf_file_path then
    upload fs net graphdb_url repository rdf_file_path
  else
    ([], [LogEntry.error "Invalid file path."], none)

/-- The per-file log lines the directory upload produces for one file
whose POST receives a response. -/
def uploadFileLogs (fs : Fs) (net : Request → HttpOutcome)
    (graphdb_url repository dirPath f : String) : List LogEntry :=
  LogEntry.info ("Uploading file: " ++ f) ::
    (upload fs net graphdb_url repository (joinPath dirPath f)).2.1

/-- Directory of three RDF files for the upload counterexample. -/
def c4Dfs : DirFs :=
  { isDir := fun p => p == "rdf/"
    isFile := fun _ => false
    pathExists := fun _ => true
    listdir := fun p => if p == "rdf/" then ["a.ttl", "b.ttl", "c.ttl"] else [] }

/-- Contents of the three RDF files. -/
def c4Fs : Fs := fun p =>
  if p = "rdf/a.ttl" then some "A"
  else if p = "rdf/b.ttl" then some "B"
  else if p = "rdf/c.ttl" then some "C"
  else none

/-- A network where exactly the POST of the second file's body suffers a
transport failure and every other POST returns 204. -/
def c4Net : Request → HttpOutcome := fun r =>
  if r.body = "B" then .transportError "connection refused"
  else .response 204 ""

/-- A network where the POST of the second file's body receives an HTTP
500 response and every other POST returns 204. -/
def c4Net500 : Request → HttpOutcome := fun r =>
  if r.body = "B" then .response 500 "server error"
  else .response 204 ""

/-- A filesystem holding one rule template, for the `execute_rml`
witness. -/
def c3Fs : Fs := fun p =>
  if p = "rules.rml.ttl" then some "x {csv_file_path} y" else none

/-- A mapper process that always fails with exit code 1. -/
def c3Run : String → ProcResult := fun _ => { returncode := 1, stderr := "boom" }

/-- Contents of the three RDF files by bare name, for the upload batch
witness. -/
def c4Body : String → String := fun f =>
  if f = "a.ttl" then "A" else if f = "b.ttl" then "B" else "C"

/-! ### Configuration loader and orchestrator, from `load_config`
(src/pipelineUtils.py:335-354) and `main` (src/pipeline.py:12-53) -/

/-- A JSON configuration value as this pipeline uses them: a string
(paths, URLs) or an integer (`n_chunks`). -/
inductive CVal
  | s (v : String)
  | n (v : Nat)
  deriving DecidableEq

/-- A parsed JSON configuration: sections by name, each a list of
key-value parameters. -/
abbrev Config := List (String × List (String × CVal))

/-- `config[k1][k2]`: a missing key raises `KeyError`. -/
def cfgGet (cfg : Config) (k1 k2 : String) : Except PyErr CVal :=
  match cfg.lookup k1 with
  | none => .error (.keyError k1)
  | some sec =>
    match sec.lookup k2 with
    | none => .error (.keyError k2)
    | some v => .ok v

/-- What opening and JSON-decoding the configuration file yields; this
is the outside-world input to `load_config`. -/
inductive LoadOutcome
  | ok (c : Config)
  | fileNotFound
  | jsonError (msg : String)
  | otherError (msg : String)

/-- Embedding of `load_config` (src/pipelineUtils.py:335-354): on
success the parsed configuration is returned; each failure kind is
caught, logged, and the function falls through returning `None`. -/
def load_config (config_file : String) : LoadOutcome → Option Config × List LogEntry
  | .ok c => (some c, [])
  | .fileNotFound =>
    (none, [LogEntry.error ("Error: The file " ++ config_file ++ " was not found.")])
  | .jsonError m =>
    (none, [LogEntry.error ("Error: Failed to decode JSON from " ++ config_file ++
      ": " ++ m)])
  | .otherError m =>
    (none, [LogEntry.error ("An unexpected error occurred: " ++ m)])

/-- The outside world the orchestrator's stages touch. -/
structure World where
  tables : String → Option (List Row)
  dfs : DirFs
  files : Fs
  net : Request → HttpOutcome
  run : String → ProcResult

/-- Observable actions of an orchestrator run: stage function calls with
their resolved arguments, and files written. -/
inductive Event
  | cleanCall (input output : String)
  | splitCall (path : String) (n : Nat) (dir : String)
  | mapCall (csv rml out mapper : String)
  | uploadCall (rdf url repo : String)
  | wrote (path : String)
  deriving DecidableEq

/-- The clean stage of `main` (src/pipeline.py:24-27): resolve the
configuration keys (a missing one raises `KeyError` before the call),
then run `clean_data`; its `ValueError` on a malformed timestamp
escapes, since `main` has no handler. -/
def stageClean (w : World) (cfg : Config) : List Event × Option PyErr :=
  match cfgGet cfg "clean_data" "input" with
  | .error e => ([], some e)
  | .ok (.n _) => ([], some (.typeError "clean_data input"))
  | .ok (.s input) =>
    match cfgGet cfg "clean_data" "output" with
    | .error e => ([], some e)
    | .ok (.n _) => ([], some (.typeError "clean_data output"))
    | .ok (.s output) =>
      match clean_data w.tables input output with
      | .error e => ([Event.cleanCall input output], some e)
      | .ok (out, _) => ([Event.cleanCall input output, Event.wrote out], none)

/-- The split stage of `main` (src/pipeline.py:29-36); `n_chunks = 0`
raises `ZeroDivisionError` in `split_dataset` before any file is
written. -/
def stageSplit (w : World) (cfg : Config) : List Event × Option PyErr :=
  match cfgGet cfg "split_dataset" "dataset_path" with
  | .error e => ([], some e)
  | .ok (.n _) => ([], some (.typeError "split_dataset dataset_path"))
  | .ok (.s p) =>
    match cfgGet cfg "split_dataset" "n_chunks" with
    | .error e => ([], some e)
    | .ok (.s _) => ([], some (.typeError "split_dataset n_chunks"))
    | .ok (.n n) =>
      match cfgGet cfg "split_dataset" "output_dir" with
      | .error e => ([], some e)
      | .ok (.n _) => ([], some (.typeError "split_dataset output_dir"))
      | .ok (.s dir) =>
        match w.tables p with
        | none => ([Event.splitCall p n dir], some (.fileNotFound p))
        | some t =>
          if n = 0 then ([Event.splitCall p n dir], some .zeroDivision)
          else
            (Event.splitCall p n dir ::
              (split_dataset t n dir (w.dfs.pathExists dir)).files.map
                (fun fl => Event.wrote fl.1),
             none)

/-- The map stage of `main` (src/pipeline.py:37-45): its CSV source is
the `split_dataset` section's `output_dir` value. -/
def stageMap (w : World) (cfg : Config) : List Event × Option PyErr :=
  match cfgGet cfg "split_dataset" "output_dir" with
  | .error e => ([], some e)
  | .ok (.n _) => ([], some (.typeError "split_dataset output_dir"))
  | .ok (.s csvSrc) =>
    match cfgGet cfg "mapping" "rml_path" with
    | .error e => ([], some e)
    | .ok (.n _) => ([], some (.typeError "mapping rml_path"))
    | .ok (.s rml) =>
      match cfgGet cfg "mapping" "output_path" with
      | .error e => ([], some e)
      | .ok (.n _) => ([], some (.typeError "mapping output_path"))
      | .ok (.s out) =>
        match cfgGet cfg "mapping" "mapper_path" with
        | .error e => ([], some e)
        | .ok (.n _) => ([], some (.typeError "mapping mapper_path"))
        | .ok (.s mp) =>
          ([Event.mapCall csvSrc rml out mp],
           match mapping w.dfs csvSrc rml out mp with
           | .error e => some e
           | .ok _ => none)

/-- The upload stage of `main` (src/pipeline.py:46-53). -/
def stageUpload (w : World) (cfg : Config) : List Event × Option PyErr :=
  match cfgGet cfg "mapping" "output_path" with
  | .error e => ([], some e)
  | .ok (.n _) => ([], some (.typeError "mapping output_path"))
  | .ok (.s rdf) =>
    match cfgGet cfg "upload_to_graphDB" "graphDB_url" with
    | .error e => ([], some e)
    | .ok (.n _) => ([], some (.typeError "upload_to_graphDB graphDB_url"))
    | .ok (.s url) =>
      match cfgGet cfg "upload_to_graphDB" "graphDB_repo" with
      | .error e => ([], some e)
      | .ok (.n _) => ([], some (.typeError "upload_to_graphDB graphDB_repo"))
      | .ok (.s repo) =>
        ([Event.uploadCall rdf url repo],
         (upload_rdf_data_to_graphdb w.dfs w.files w.net rdf url repo).2.2)

/-- Sequencing of one flag-gated stage: a pending exception skips every
later statement of `main`; otherwise the stage runs when its flag is
set, appending its events. -/
def seqStage (acc : List Event × Option PyErr) (flag : Bool)
    (st : List Event × Option PyErr) : List Event × Option PyErr :=
  match acc.2 with
  | some e => (acc.1, some e)
  | none => if flag then (acc.1 ++ st.1, st.2) else acc

/-- Embedding of `main` (src/pipeline.py:12-53): load the configuration
(aborting with a plain return when `not config`), then run the four
flag-gated stages in fixed order; an uncaught exception in one statement
ends the run. -/
def main (w : World) (config_path : String) (lo : LoadOutcome)
    (cleanF splitF mapF uploadF : Bool) : List Event × Option PyErr :=
  match (load_config config_path lo).1 with
  | none => ([], none)
  | some config =>
    if config.isEmpty then ([], none)
    else
      seqStage (seqStage (seqStage (seqStage ([], none) cleanF (stageClean w config))
        splitF (stageSplit w config)) mapF (stageMap w config))
        uploadF (stageUpload w config)

/-- A CSV row whose timestamp is malformed. -/
def c5Row : Row :=
  { data_rilevazione := "bad"
    unit := "-"
    quality := "q"
    register_name := "r" }

/-- A directory view with no directories or files. -/
def emptyDfs : DirFs :=
  { isDir := fun _ => false
    isFile := fun _ => false
    pathExists := fun _ => false
    listdir := fun _ => [] }

/-- A world for the orchestrator theorems: one CSV whose single row has
a malformed timestamp; no directories; an inert network and mapper. -/
def c5World : World :=
  { tables := fun p => if p = "in.csv" then some [c5Row] else none
    dfs := emptyDfs
    files := fun _ => none
    net := fun _ => .response 204 ""
    run := fun _ => { returncode := 0, stderr := "" } }

/-- A configuration with clean and split sections. -/
def c5Cfg : Config :=
  [("clean_data", [("input", .s "in.csv"), ("output", .s "out.csv")]),
   ("split_dataset", [("dataset_path", .s "out.csv"), ("n_chunks", .n 2),
     ("output_dir", .s "chunks/")])]

/-- A configuration with split and mapping sections. -/
def c10Cfg : Config :=
  [("split_dataset", [("dataset_path", .s "out.csv"), ("n_chunks", .n 2),
     ("output_dir", .s "chunks/")]),
   ("mapping", [("rml_path", .s "r.ttl"), ("output_path", .s "kg/"),
     ("mapper_path", .s "m.jar")])]

/-- A configuration with a mapping section but no `split_dataset`
section. -/
def c10CfgNoSplit : Config :=
  [("mapping", [("rml_path", .s "r.ttl"), ("output_path", .s "kg/"),
     ("mapper_path", .s "m.jar")])]

theorem chunk_flatten_take {α : Type} (rows : List α) (c : Nat) :
    ∀ k, ((List.range k).map (fun i => (rows.drop (i * c)).take c)).flatten
      = rows.take (k * c) := by
  intro k
  induction k with
  | zero => simp
  | succ k ih =>
    rw [List.range_succ, List.map_append, List.flatten_append, ih]
    simp only [List.map_cons, List.map_nil, List.flatten_cons, List.flatten_nil,
      List.append_nil]
    rw [Nat.succ_mul, List.take_add]

/-- Claim C1: for every CSV dataset with `R` rows and every positive chunk
count `N`, `split_dataset` writes exactly `N` CSV files named
`data_chunk_i.csv` (`i` from `0` to `N - 1`) into the output directory
(creating it if absent), where each of the first `N - 1` files holds
exactly `R / N` rows, the last file holds the remaining
`R - (N - 1) * (R / N)` rows, the per-file row counts sum to `R`, and row
order within and across chunks matches the source order. -/
theorem C1_split_dataset {α : Type} (rows : List α) (N : Nat) (hN : 0 < N)
    (dir : String) (dirExists : Bool) : SplitDatasetSpec rows N dir dirExists := by
  obtain ⟨M, rfl⟩ : ∃ M, N = M + 1 := ⟨N - 1, (Nat.succ_pred_eq_of_pos hN).symm⟩
  have hNc : (M + 1) * (rows.length / (M + 1)) ≤ rows.length := by
    rw [Nat.mul_comm]; exact Nat.div_mul_le_self _ _
  have hsnd : ((split_dataset rows (M + 1) dir dirExists).files.map Prod.snd)
      = (List.range (M + 1)).map
          (fun i => chunkOf rows (rows.length / (M + 1)) (M + 1) i) := by
    simp [split_dataset, List.map_map, Function.comp]
  have hflat : ((split_dataset rows (M + 1) dir dirExists).files.map Prod.snd).flatten
      = rows := by
    rw [hsnd, List.range_succ, List.map_append, List.flatten_append]
    have h1 : (List.range M).map
          (fun i => chunkOf rows (rows.length / (M + 1)) (M + 1) i)
        = (List.range M).map
          (fun i => (rows.drop (i * (rows.length / (M + 1)))).take
            (rows.length / (M + 1))) := by
      apply List.map_congr_left
      intro i hi
      have hiM : i ≠ M := by
        have := List.mem_range.mp hi; omega
      simp [chunkOf, hiM]
    have h2 : chunkOf rows (rows.length / (M + 1)) (M + 1) M
        = rows.drop (M * (rows.length / (M + 1))) := by
      simp [chunkOf]
    rw [h1, chunk_flatten_take]
    simp only [List.map_cons, List.map_nil, List.flatten_cons, List.flatten_nil,
      List.append_nil, h2]
    exact List.take_append_drop _ _
  refine ⟨rfl, ?_, ?_, ?_, ?_, ?_, hflat⟩
  · simp [split_dataset]
  · intro i hi
    have hr : (List.range (M + 1))[i]? = some i := List.getElem?_range hi
    simp [split_dataset, List.getElem?_map, hr]
  · intro i hi
    have hiM : i ≠ M := by omega
    have h1 : (i + 1) * (rows.length / (M + 1)) ≤ (M + 1) * (rows.length / (M + 1)) :=
      Nat.mul_le_mul_right _ (by omega)
    rw [Nat.succ_mul] at h1
    simp only [chunkOf, Nat.add_sub_cancel, if_neg hiM]
    rw [List.length_take, List.length_drop]
    omega
  · simp [chunkOf]
  · have h := congrArg List.length hflat
    rw [List.length_flatten] at h
    exact h

/-- Witness for C1, at the dataset of §8 of the specification: 100 rows
split into 3 chunks (33, 33 and 34 rows). -/
theorem C1_split_dataset_witness :
    0 < 3 ∧ SplitDatasetSpec (List.range 100) 3 "chunks/" false :=
  ⟨by decide, C1_split_dataset (List.range 100) 3 (by decide) "chunks/" false⟩

/-! ### Theorems for the timestamp normalizer (claim C7) -/

/-- Claim C7 counterexample: `"2021-3-4 10:15:30.5"` does not match the
fixed format `YYYY-MM-DD HH:MM:SS.ffffff` exactly (month, day and
fraction are unpadded), yet `convert_to_iso8601` parses it successfully,
because `strptime`'s pattern for `%m`, `%d`, `%H`, `%M`, `%S` also
accepts one digit and `%f` accepts one to six digits.  So it is not the
case that every input not matching the fixed format exactly fails. -/
theorem C7_counterexample :
    matchesFixedFormat "2021-3-4 10:15:30.5" = false ∧
    convert_to_iso8601 "2021-3-4 10:15:30.5" = some "2021-03-04T10:15:30.500000" :=
  ⟨rfl, rfl⟩

/-- Claim C7 as amended: `convert_to_iso8601` maps
`"2021-03-04 10:15:30.500000"` to `"2021-03-04T10:15:30.500000"`, and
fails with a parse error on every input the single `strptime` pattern
`%Y-%m-%d %H:%M:%S.%f` rejects — e.g. `"04/03/2021"`, a date without a
time part, or a timestamp without a fractional part — with no fallback
formats attempted; but the pattern is lenient: month, day, hour, minute
and second may be unpadded, the fraction may have one to six digits, the
date-time separator may be any run of whitespace (several spaces, a
tab), and the day may be space-padded — none of which matches
`YYYY-MM-DD HH:MM:SS.ffffff` exactly. -/
theorem C7_convert_to_iso8601 :
    convert_to_iso8601 "2021-03-04 10:15:30.500000" = some "2021-03-04T10:15:30.500000" ∧
    convert_to_iso8601 "2021-03-04  10:15:30.5" = some "2021-03-04T10:15:30.500000" ∧
    convert_to_iso8601 "2021-03-04\t10:15:30.5" = some "2021-03-04T10:15:30.500000" ∧
    convert_to_iso8601 "2021-03- 4 10:15:30.5" = some "2021-03-04T10:15:30.500000" ∧
    convert_to_iso8601 "04/03/2021" = none ∧
    convert_to_iso8601 "2021-03-04" = none ∧
    convert_to_iso8601 "2021-03-04 10:15:30" = none ∧
    convert_to_iso8601 "2021-13-04 10:15:30.500000" = none ∧
    convert_to_iso8601 "2021- 3-04 10:15:30.5" = none ∧
    convert_to_iso8601 "2021-03-  4 10:15:30.5" = none ∧
    convert_to_iso8601 " 2021-03-04 10:15:30.500000" = none ∧
    convert_to_iso8601 "2021-03-04 10:15:30.500000 " = none :=
  ⟨rfl, rfl, rfl, rfl, rfl, rfl, rfl, rfl, rfl, rfl, rfl, rfl⟩

/-! ### Theorems for the digit stripper and the property column (claim C8) -/

theorem filter_dropWhile_not {α : Type} (p : α → Bool) (l : List α) :
    (l.dropWhile p).filter (fun c => !p c) = l.filter (fun c => !p c) := by
  induction l with
  | nil => rfl
  | cons c cs ih =>
    rw [List.dropWhile_cons]
    by_cases h : p c
    · simp [h, ih]
    · simp [h]

theorem removeNumAux_eq_filter :
    ∀ (fuel : Nat) (l : List Char), l.length ≤ fuel →
      removeNumAux fuel l = l.filter (fun c => !c.isDigit) := by
  intro fuel
  induction fuel with
  | zero =>
    intro l hl
    have h0 : l = [] := List.length_eq_zero.mp (Nat.le_zero.mp hl)
    subst h0; rfl
  | succ fuel ih =>
    intro l hl
    match l with
    | [] => rfl
    | c :: cs =>
      simp only [removeNumAux]
      by_cases h : c.isDigit
      · rw [if_pos h]
        have hlen : (cs.dropWhile Char.isDigit).length ≤ fuel := by
          have h1 : (cs.dropWhile Char.isDigit).length ≤ cs.length :=
            (List.dropWhile_sublist Char.isDigit).length_le
          simp only [List.length_cons] at hl
          omega
        rw [ih _ hlen, filter_dropWhile_not]
        simp [List.filter_cons, h]
      · have hlen : cs.length ≤ fuel := by
          simp only [List.length_cons] at hl; omega
        rw [if_neg h, ih cs hlen]
        simp [List.filter_cons, h]

/-- Claim C8 counterexample: the register name `"Current1\nA"` strips to
`"Current\nA"`, which begins with `"Current"`, but the cleaner's derived
property value is `"Current\nA"`, not the literal `"Current"`: in the
regex `^Current.*` of src/pipelineUtils.py:284 the `.` does not match a
newline, so only the first line is collapsed. -/
theorem C8_counterexample :
    "Current".data.isPrefixOf (remove_numbers "Current1\nA").data = true ∧
    clean_table [c8Row] = .ok [c8CleanRow] ∧
    c8CleanRow.property ≠ "Current" := by
  refine ⟨rfl, rfl, by decide⟩

/-- Claim C8 as amended: `remove_numbers` removes every digit character
and leaves all other characters untouched in their original order (so
`"Current123A"` maps to `"CurrentA"`); and in the cleaner's derived
property column, every register-name value that, after digit-stripping,
begins with `"Current"` and contains no newline is collapsed to exactly
the literal `"Current"` (a value with a newline keeps everything from
the newline on). -/
theorem C8_remove_numbers :
    (∀ s : String, (remove_numbers s).data = s.data.filter (fun c => !c.isDigit)) ∧
    (∀ t : String, '\n' ∉ t.data → "Current".data.isPrefixOf t.data = true →
      collapseCurrent t = "Current") := by
  constructor
  · intro s
    exact removeNumAux_eq_filter s.data.length s.data (Nat.le_refl _)
  · intro t hnl hcur
    have h0 : (t.data.drop 7).dropWhile (fun c => decide (c ≠ '\n')) = [] := by
      rw [List.dropWhile_eq_nil_iff]
      intro x hx
      simp only [decide_eq_true_eq]
      exact fun h => hnl (h ▸ List.mem_of_mem_drop hx)
    simp only [collapseCurrent, hcur, if_true, h0]
    rfl

/-- Witness for C8's amended claim at the concrete register name of the
specification's example. -/
theorem C8_remove_numbers_witness :
    (remove_numbers "Current123A").data
        = "Current123A".data.filter (fun c => !c.isDigit) ∧
    collapseCurrent (remove_numbers "Current123A") = "Current" :=
  ⟨C8_remove_numbers.1 "Current123A",
   C8_remove_numbers.2 (remove_numbers "Current123A") (by decide) (by decide)⟩

/-! ### Theorems for idempotence of the unit and quality cleaning (claim C9) -/

/-- Claim C9 counterexample: the quality value
`"QualQualità della misura: ità della misura: x"` cleans successfully to
`"Qualità della misura: x"` — removing the one occurrence of the prefix
splices together a new occurrence — so on that cleaned output a second
run of the quality transformation changes the column again (to `"x"`). -/
theorem C9_counterexample :
    clean_table [c9Row] = .ok [c9CleanRow] ∧
    stripQuality c9CleanRow.quality = "x" ∧
    stripQuality c9CleanRow.quality ≠ c9CleanRow.quality := by
  refine ⟨rfl, rfl, by decide⟩

theorem stripQualAux_id :
    ∀ (fuel : Nat) (l : List Char), l.length ≤ fuel →
      occursIn qualPat.data l = false → stripQualAux fuel l = l := by
  intro fuel
  induction fuel with
  | zero =>
    intro l hl _
    have h0 : l = [] := List.length_eq_zero.mp (Nat.le_zero.mp hl)
    subst h0; rfl
  | succ fuel ih =>
    intro l hl hocc
    match l with
    | [] => rfl
    | c :: cs =>
      rw [occursIn, Bool.or_eq_false_iff] at hocc
      simp only [stripQualAux, hocc.1, Bool.false_eq_true, if_false]
      have hlen : cs.length ≤ fuel := by
        simp only [List.length_cons] at hl; omega
      rw [ih cs hlen hocc.2]

/-- Claim C9 as amended: the unit transformation (replace the literal
`"-"` with `"Dimensionless"`) is idempotent on every value; the quality
transformation (strip the fixed descriptive prefix wherever it occurs)
leaves unchanged every value in which the prefix does not occur — in
particular a second run is a no-op whenever the first run's output
contains no occurrence of the prefix — but removing occurrences can
splice a new occurrence together, so idempotence on the quality column
fails in general. -/
theorem C9_unit_quality :
    (∀ u : String, replaceDash (replaceDash u) = replaceDash u) ∧
    (∀ q : String, occursIn qualPat.data q.data = false → stripQuality q = q) := by
  constructor
  · intro u
    by_cases h : u = "-"
    · subst h; rfl
    · simp [replaceDash, h]
  · intro q hocc
    show String.mk (stripQualAux _ _) = q
    rw [stripQualAux_id q.data.length q.data (Nat.le_refl _) hocc]

/-- Witness for C9's amended claim on concrete column values. -/
theorem C9_unit_quality_witness :
    replaceDash (replaceDash "-") = replaceDash "-" ∧
    occursIn qualPat.data "Voltage ok".data = false ∧
    stripQuality "Voltage ok" = "Voltage ok" :=
  ⟨C9_unit_quality.1 "-", by decide, C9_unit_quality.2 "Voltage ok" (by decide)⟩

/-! ### Theorems for the mapping invoker (claims C2 and C3) -/

/-- Claim C2, evaluated at its failing input: with the rule path a single
file and the CSV path a directory containing one file, `mapping` raises
`UnboundLocalError` from the log line at src/pipelineUtils.py:144
(`rml_file` is only assigned by the other branch's loop) before any
mapper invocation, instead of performing one invocation per CSV file
with output `output_0.ttl`. -/
theorem C2_mapping_bug :
    mapping c2Dfs "chunks/" "rules.rml.ttl" "out/" "mapper.jar"
      = .error (.unboundLocal "rml_file") := rfl

/-- Claim C3: whenever the rule template exists, `execute_rml` returns
normally (the `CalledProcessError` of a non-zero exit is caught, so
sibling invocations in the batch continue), the shared temporary rule
file is absent from the resulting filesystem both on success and on
failure of the external process, a non-zero exit is logged with its exit
code and captured error output, and a zero exit logs nothing. -/
theorem C3_execute_rml (fs : Fs) (run : String → ProcResult)
    (csv rml out mp content : String) (h : fs rml = some content) :
    ∃ fs' logs, execute_rml fs run csv rml out mp = .ok (fs', logs) ∧
      fs' tmp_rml_file = none ∧
      ((run (rmlCommand mp out)).returncode = 0 → logs = []) ∧
      ((run (rmlCommand mp out)).returncode ≠ 0 →
        logs = [LogEntry.error ("Error: " ++
          toString (run (rmlCommand mp out)).returncode ++ ", " ++
          (run (rmlCommand mp out)).stderr)]) := by
  refine ⟨fsRemove (fsWrite fs tmp_rml_file
      (content.replace "{csv_file_path}" csv)) tmp_rml_file,
    if (run (rmlCommand mp out)).returncode = 0 then []
    else [LogEntry.error ("Error: " ++
      toString (run (rmlCommand mp out)).returncode ++ ", " ++
      (run (rmlCommand mp out)).stderr)],
    ?_, ?_, ?_, ?_⟩
  · simp only [execute_rml, h]
  · unfold fsRemove
    rw [if_pos rfl]
  · intro h0
    rw [if_pos h0]
  · intro h0
    rw [if_neg h0]

/-- Witness for C3 at a concrete filesystem and a mapper that exits with
code 1. -/
theorem C3_execute_rml_witness :
    ∃ fs' logs,
      execute_rml c3Fs c3Run "c.csv" "rules.rml.ttl" "o.ttl" "mapper.jar"
        = .ok (fs', logs) ∧
      fs' tmp_rml_file = none ∧
      ((c3Run (rmlCommand "mapper.jar" "o.ttl")).returncode = 0 → logs = []) ∧
      ((c3Run (rmlCommand "mapper.jar" "o.ttl")).returncode ≠ 0 →
        logs = [LogEntry.error ("Error: " ++
          toString (c3Run (rmlCommand "mapper.jar" "o.ttl")).returncode ++ ", " ++
          (c3Run (rmlCommand "mapper.jar" "o.ttl")).stderr)]) :=
  C3_execute_rml c3Fs c3Run "c.csv" "rules.rml.ttl" "o.ttl" "mapper.jar"
    "x {csv_file_path} y" (by decide)

/-! ### Theorems for the uploader (claim C4) -/

/-- Claim C4 counterexample: over a directory of three RDF files where
the second file's POST suffers a transport failure, only two requests
are attempted — the exception from `requests.post` is uncaught, so the
third file is never attempted, contradicting the claim that a transport
failure is logged and does not prevent the remaining files from being
attempted. -/
theorem C4_counterexample :
    (c4Dfs.listdir "rdf/").length = 3 ∧
    (upload_rdf_data_to_graphdb c4Dfs c4Fs c4Net "rdf/" "http://gdb" "repo").1.length
        = 2 ∧
    (upload_rdf_data_to_graphdb c4Dfs c4Fs c4Net "rdf/" "http://gdb" "repo").2.2
        = some (.transportError "connection refused") ∧
    (upload_rdf_data_to_graphdb c4Dfs c4Fs c4Net "rdf/" "http://gdb" "repo").2.1
        = [LogEntry.info "Uploading file: a.ttl",
           LogEntry.info "RDF file rdf/a.ttl uploaded to repository repo.",
           LogEntry.info "Uploading file: b.ttl"] := by
  refine ⟨rfl, rfl, rfl, rfl⟩

theorem uploadDirFiles_responses (fs : Fs) (net : Request → HttpOutcome)
    (url repo dirPath : String) (body : String → String) :
    ∀ l : List String,
      (∀ f ∈ l, fs (joinPath dirPath f) = some (body f)) →
      (∀ f ∈ l, isResponse (net (mkUploadRequest url repo (body f))) = true) →
      uploadDirFiles fs net url repo dirPath l
        = (l.map (fun f => mkUploadRequest url repo (body f)),
           (l.map (uploadFileLogs fs net url repo dirPath)).flatten,
           none) := by
  intro l
  induction l with
  | nil => intro _ _; rfl
  | cons f rest ih =>
    intro hc hn
    have hf : fs (joinPath dirPath f) = some (body f) :=
      hc f (List.mem_cons_self f rest)
    have hnf : isResponse (net (mkUploadRequest url repo (body f))) = true :=
      hn f (List.mem_cons_self f rest)
    obtain ⟨logs1, h1⟩ : ∃ logs1, upload fs net url repo (joinPath dirPath f)
        = ([mkUploadRequest url repo (body f)], logs1, none) := by
      cases hnet : net (mkUploadRequest url repo (body f)) with
      | response status text =>
        by_cases h204 : status = 204
        · exact ⟨[LogEntry.info ("RDF file " ++ joinPath dirPath f ++
              " uploaded to repository " ++ repo ++ ".")], by
            simp only [upload, hf, hnet]
            rw [if_pos h204]⟩
        · exact ⟨[LogEntry.error ("Failed to upload RDF file " ++ joinPath dirPath f ++
              ". Response: " ++ text)], by
            simp only [upload, hf, hnet]
            rw [if_neg h204]⟩
      | transportError m =>
        rw [hnet] at hnf
        simp [isResponse] at hnf
    have h2 : uploadFileLogs fs net url repo dirPath f
        = LogEntry.info ("Uploading file: " ++ f) :: logs1 := by
      unfold uploadFileLogs
      rw [h1]
    simp only [uploadDirFiles, h1,
      ih (fun g hg => hc g (List.mem_cons_of_mem f hg))
         (fun g hg => hn g (List.mem_cons_of_mem f hg)),
      List.map_cons, List.flatten_cons, h2]
    rfl

/-- Claim C4 as amended: over a directory of RDF files whose POSTs all
receive HTTP responses (no transport failure), exactly one request is
attempted per file; success is solely status 204 and any non-204
response is logged as a failure without preventing the remaining files
from being attempted (the batch finishes with no exception).  A
transport failure, however, propagates out of `upload` uncaught and
aborts the batch. -/
theorem C4_upload_batch (d : DirFs) (fs : Fs) (net : Request → HttpOutcome)
    (dir url repo : String) (body : String → String)
    (hdir : d.isDir dir = true)
    (hc : ∀ f ∈ d.listdir dir, fs (joinPath dir f) = some (body f))
    (hn : ∀ f ∈ d.listdir dir,
      isResponse (net (mkUploadRequest url repo (body f))) = true) :
    (upload_rdf_data_to_graphdb d fs net dir url repo).1
        = (d.listdir dir).map (fun f => mkUploadRequest url repo (body f)) ∧
    (upload_rdf_data_to_graphdb d fs net dir url repo).2.2 = none ∧
    (upload_rdf_data_to_graphdb d fs net dir url repo).2.1
        = ((d.listdir dir).map (uploadFileLogs fs net url repo dir)).flatten := by
  unfold upload_rdf_data_to_graphdb
  rw [hdir]
  rw [uploadDirFiles_responses fs net url repo dir body (d.listdir dir) hc hn]
  exact ⟨rfl, rfl, rfl⟩

/-- Witness for C4's amended claim: three files, the second receiving an
HTTP 500 — all three requests are attempted and the batch finishes. -/
theorem C4_upload_batch_witness :
    (upload_rdf_data_to_graphdb c4Dfs c4Fs c4Net500 "rdf/" "http://gdb" "repo").1
        = (c4Dfs.listdir "rdf/").map
            (fun f => mkUploadRequest "http://gdb" "repo" (c4Body f)) ∧
    (upload_rdf_data_to_graphdb c4Dfs c4Fs c4Net500 "rdf/" "http://gdb" "repo").2.2
        = none ∧
    (upload_rdf_data_to_graphdb c4Dfs c4Fs c4Net500 "rdf/" "http://gdb" "repo").2.1
        = ((c4Dfs.listdir "rdf/").map
            (uploadFileLogs c4Fs c4Net500 "http://gdb" "repo" "rdf/")).flatten :=
  C4_upload_batch c4Dfs c4Fs c4Net500 "rdf/" "http://gdb" "repo" c4Body
    (by decide) (by decide) (by decide)

/-! ### Theorems for the orchestrator (claims C5, C6 and C10) -/

theorem clean_table_error (t : List Row) (r : Row) (hr : r ∈ t)
    (hbad : convert_to_iso8601 r.data_rilevazione = none) :
    ∃ e, clean_table t = .error e := by
  induction t with
  | nil => cases hr
  | cons x xs ih =>
    rcases List.mem_cons.mp hr with h | h
    · subst h
      exact ⟨_, by simp only [clean_table, hbad]; rfl⟩
    · cases hx : convert_to_iso8601 x.data_rilevazione with
      | none => exact ⟨_, by simp only [clean_table, hx]; rfl⟩
      | some ts =>
        obtain ⟨e, he⟩ := ih h
        exact ⟨e, by simp only [clean_table, hx, he]⟩

/-- Claim C5 counterexample: a run with the clean and split stages both
enabled, on a dataset whose single row has the malformed timestamp
`"bad"`: the cleaning operation fails as a whole (no `wrote` event) and
the `ValueError` escapes `main` — the enabled split stage never runs
(no `splitCall` event), so the orchestrator does not complete the run
and does not execute later enabled stages. -/
theorem C5_counterexample :
    main c5World "config.json" (.ok c5Cfg) true true false false
      = ([Event.cleanCall "in.csv" "out.csv"],
         some (.valueError
           "time data bad does not match format %Y-%m-%d %H:%M:%S.%f")) := rfl

/-- Claim C5 as amended: if any row's timestamp is malformed, the
cleaning operation fails as a whole (no per-row recovery, no output file
written — the only event is the `clean_data` call itself), and the
exception propagates out of the orchestrator: the run ends immediately
and no later stage executes, whatever the other flags are. -/
theorem C5_clean_failure (w : World) (cfg : Config) (cp : String) (s m u : Bool)
    (input output : String) (t : List Row) (r : Row)
    (h1 : cfgGet cfg "clean_data" "input" = .ok (.s input))
    (h2 : cfgGet cfg "clean_data" "output" = .ok (.s output))
    (h3 : cfg ≠ [])
    (h4 : w.tables input = some t)
    (h5 : r ∈ t)
    (h6 : convert_to_iso8601 r.data_rilevazione = none) :
    ∃ e, main w cp (.ok cfg) true s m u
      = ([Event.cleanCall input output], some e) := by
  obtain ⟨e, he⟩ := clean_table_error t r h5 h6
  have hstage : stageClean w cfg = ([Event.cleanCall input output], some e) := by
    simp only [stageClean, h1, h2, clean_data, h4, he]
  have hemp : cfg.isEmpty = false := by
    cases cfg with
    | nil => exact absurd rfl h3
    | cons a l => rfl
  refine ⟨e, ?_⟩
  simp [main, load_config, hemp, seqStage, hstage]

/-- Witness for C5's amended claim at the concrete malformed dataset,
with every stage flag enabled. -/
theorem C5_clean_failure_witness :
    ∃ e, main c5World "config.json" (.ok c5Cfg) true true true true
      = ([Event.cleanCall "in.csv" "out.csv"], some e) :=
  C5_clean_failure c5World c5Cfg "config.json" true true true "in.csv" "out.csv"
    [c5Row] c5Row rfl rfl (by decide) rfl (List.mem_cons_self c5Row []) rfl

/-- Claim C6: on any failing configuration load (file absent, malformed
JSON, any other error) `load_config` logs the error and returns an
absent result, and the orchestrator aborts the run executing none of the
four stages (no events), whatever the stage flags are. -/
theorem C6_load_config_failure (w : World) (cp msg : String) (c s m u : Bool) :
    (load_config cp .fileNotFound).1 = none ∧
    (load_config cp (.jsonError msg)).1 = none ∧
    (load_config cp (.otherError msg)).1 = none ∧
    (load_config cp .fileNotFound).2
        = [LogEntry.error ("Error: The file " ++ cp ++ " was not found.")] ∧
    (load_config cp (.jsonError msg)).2
        = [LogEntry.error ("Error: Failed to decode JSON from " ++ cp ++
            ": " ++ msg)] ∧
    (load_config cp (.otherError msg)).2
        = [LogEntry.error ("An unexpected error occurred: " ++ msg)] ∧
    main w cp .fileNotFound c s m u = ([], none) ∧
    main w cp (.jsonError msg) c s m u = ([], none) ∧
    main w cp (.otherError msg) c s m u = ([], none) :=
  ⟨rfl, rfl, rfl, rfl, rfl, rfl, rfl, rfl, rfl⟩

theorem stageClean_no_mapCall (w : World) (cfg : Config) (csv rml out mp : String) :
    Event.mapCall csv rml out mp ∉ (stageClean w cfg).1 := by
  unfold stageClean
  repeat' split
  all_goals simp

theorem stageSplit_no_mapCall (w : World) (cfg : Config) (csv rml out mp : String) :
    Event.mapCall csv rml out mp ∉ (stageSplit w cfg).1 := by
  unfold stageSplit
  repeat' split
  all_goals simp

theorem stageUpload_no_mapCall (w : World) (cfg : Config) (csv rml out mp : String) :
    Event.mapCall csv rml out mp ∉ (stageUpload w cfg).1 := by
  unfold stageUpload
  repeat' split
  all_goals simp

theorem stageMap_mapCall_eq (w : World) (cfg : Config) (csv rml out mp : String)
    (h : Event.mapCall csv rml out mp ∈ (stageMap w cfg).1) :
    cfgGet cfg "split_dataset" "output_dir" = .ok (.s csv) := by
  unfold stageMap at h
  cases h1 : cfgGet cfg "split_dataset" "output_dir" with
  | error e1 => rw [h1] at h; simp at h
  | ok v1 =>
    cases v1 with
    | n k => rw [h1] at h; simp at h
    | s csvSrc =>
      cases h2 : cfgGet cfg "mapping" "rml_path" with
      | error e2 => rw [h1, h2] at h; simp at h
      | ok v2 =>
        cases v2 with
        | n k => rw [h1, h2] at h; simp at h
        | s rml2 =>
          cases h3 : cfgGet cfg "mapping" "output_path" with
          | error e3 => rw [h1, h2, h3] at h; simp at h
          | ok v3 =>
            cases v3 with
            | n k => rw [h1, h2, h3] at h; simp at h
            | s out3 =>
              cases h4 : cfgGet cfg "mapping" "mapper_path" with
              | error e4 => rw [h1, h2, h3, h4] at h; simp at h
              | ok v4 =>
                cases v4 with
                | n k => rw [h1, h2, h3, h4] at h; simp at h
                | s mp4 =>
                  rw [h1, h2, h3, h4] at h
                  simp only [List.mem_singleton, Event.mapCall.injEq] at h
                  rw [h.1]

theorem seqStage_mem {e : Event} (acc : List Event × Option PyErr) (flag : Bool)
    (st : List Event × Option PyErr) (h : e ∈ (seqStage acc flag st).1) :
    e ∈ acc.1 ∨ e ∈ st.1 := by
  unfold seqStage at h
  cases hacc : acc.2 with
  | some err => rw [hacc] at h; exact Or.inl h
  | none =>
    rw [hacc] at h
    by_cases hf : flag
    · rw [if_pos hf] at h
      exact List.mem_append.mp h
    · rw [if_neg hf] at h
      exact Or.inl h

/-- Claim C10: whenever a run performs a mapping-stage call, the CSV
source it passes is exactly the `split_dataset` section's `output_dir`
value — the mapping stage cannot be pointed at any other CSV source
through the configuration; and when the `split_dataset` section is
absent, enabling the map stage alone makes the run abort with
`KeyError("split_dataset")` before any mapper call, even though the
split stage itself is disabled. -/
theorem C10_map_source :
    (∀ (w : World) (cfg : Config) (cp : String) (c s m u : Bool)
        (csv rml out mp : String),
      Event.mapCall csv rml out mp ∈ (main w cp (.ok cfg) c s m u).1 →
      cfgGet cfg "split_dataset" "output_dir" = .ok (.s csv)) ∧
    (∀ (w : World) (cp : String) (cfg : Config), cfg ≠ [] →
      cfg.lookup "split_dataset" = none →
      main w cp (.ok cfg) false false true false
        = ([], some (.keyError "split_dataset"))) := by
  constructor
  · intro w cfg cp c s m u csv rml out mp h
    simp only [main, load_config] at h
    by_cases hemp : cfg.isEmpty
    · simp [hemp] at h
    · simp only [hemp, Bool.false_eq_true, if_false] at h
      rcases seqStage_mem _ _ _ h with h | h
      · rcases seqStage_mem _ _ _ h with h | h
        · rcases seqStage_mem _ _ _ h with h | h
          · rcases seqStage_mem _ _ _ h with h | h
            · cases h
            · exact absurd h (stageClean_no_mapCall w cfg csv rml out mp)
          · exact absurd h (stageSplit_no_mapCall w cfg csv rml out mp)
        · exact stageMap_mapCall_eq w cfg csv rml out mp h
      · exact absurd h (stageUpload_no_mapCall w cfg csv rml out mp)
  · intro w cp cfg hne hlook
    have hemp : cfg.isEmpty = false := by
      cases cfg with
      | nil => exact absurd rfl hne
      | cons a l => rfl
    have hget : cfgGet cfg "split_dataset" "output_dir"
        = .error (.keyError "split_dataset") := by
      unfold cfgGet
      rw [hlook]
    simp [main, load_config, hemp, seqStage, stageMap, hget]

/-- Witness for C10 on concrete configurations: with the full
configuration the one mapping call of the run uses `"chunks/"`, the
configured `split_dataset.output_dir`; without the `split_dataset`
section the run aborts with a `KeyError`. -/
theorem C10_map_source_witness :
    cfgGet c10Cfg "split_dataset" "output_dir" = .ok (.s "chunks/") ∧
    main c5World "config.json" (.ok c10CfgNoSplit) false false true false
      = ([], some (.keyError "split_dataset")) :=
  ⟨C10_map_source.1 c5World c10Cfg "config.json" false false true false
      "chunks/" "r.ttl" "kg/" "m.jar" (by decide),
   C10_map_source.2 c5World "config.json" c10CfgNoSplit (by decide) rfl⟩

end KGPipeline
